import Mathlib

/-!
Verification of the OMAP5 EVM board-support file
(`arch/arm/mach-omap2/board-omap5evm.c`).

The board file is shallowly embedded as follows.  The mutable static
variables that the initialisation path writes (`mmc[1].gpio_cd`, the
`usbhs_bdata.reset_gpio_port` entries, `gpio_wlan_irq`,
`twl6040_data.audpwron_gpio` and `omap5_sdp5430_wlan_data.irq`) form a
`BoardState`.  Calls into the host kernel (gpio, hwspinlock, clock,
i2c, registration APIs) are recorded as an event trace, and the return
values the kernel hands back are supplied by an `Env` record, so that
every possible outcome of the external calls is covered by quantifying
over `Env`.  Static descriptor tables (regulator constraints, keymaps,
LED lists, DSS devices) are transcribed directly as Lean data.
-/

namespace OmapBoard

/-- Calls the board file makes into the host kernel, recorded in order.
`ret` fields carry the value the kernel returned for calls whose result
the board file can observe.  The three `Mark` events record entry into
`omap_5432_uevm_init`, `omap_5430_sevm_init` and `omap54xx_common_init`. -/
inductive Event where
  | log (msg : String)
  | muxInitArray (name : String) (len : Nat)
  | muxInitGpio (gpio : Int)
  | muxInitSignal (name : String)
  | hwspinInitCall (bus_id : Int) (spinlock_id : Int)
  | hwspinRequestGeneric
  | hwspinRequestSpecific (id : Int)
  | registerBusBoardData (bus : Nat)
  | registerI2cBus (bus : Nat) (rate : Nat) (devs : List (String × Nat))
  | gpioRequest (gpio : Int) (label : String) (ret : Int)
  | gpioRequestOne (gpio : Int) (label : String) (ret : Int)
  | gpioDirInput (gpio : Int)
  | gpioDirOutput (gpio : Int) (value : Int)
  | mdelay (ms : Nat)
  | writel (val : Nat) (addr : Nat)
  | wlSetPlatformData (irq : Option Int) (ret : Int)
  | platformDeviceRegister (name : String)
  | emifSetDetails (ch : Nat)
  | macFixupPaths (n : Nat)
  | serialBoardInit (id : Nat)
  | sdrcInit
  | hsmmcInit (mmc1cd : Int)
  | i2cRegisterBoardInfo (bus : Nat) (n : Nat)
  | usbhsInit (p1 p2 : Int)
  | platformAddDevices (n : Nat)
  | omapHdmiInit (arg : Nat)
  | omapDisplayInit (numDevices : Nat)
  | sensorInit
  | keyboardInit (ret : Int)
  | rprmRegulatorInit (n : Nat)
  | clkGetAux (ok : Bool)
  | clkSetRate (hz : Nat)
  | clkEnable
  | omap5MuxInit
  | commonInitMark
  | uevmInitMark
  | sevmInitMark
deriving Repr, DecidableEq

/-- Results the host kernel returns to the board file.  Board-file
behaviour is a function of this record, so theorems quantified over
`Env` cover every outcome of the external calls.  `cfg_wl12xx` and
`cfg_palmas` reflect `CONFIG_WL12XX_PLATFORM_DATA` and
`CONFIG_OMAP5_SEVM_PALMAS`. -/
structure Env where
  hwspinGeneric : Option Nat
  hwspinSpecific : Int → Option Nat
  gpioRequest : Int → String → Int
  gpioRequestOne : Int → String → Int
  wl12xxSetData : Int
  keyboardInit : Int
  clkGetAux : Option Nat
  cfg_wl12xx : Bool
  cfg_palmas : Bool

/-- The mutable static variables of the board file that its init code
writes: `mmc[1].gpio_cd`, `usbhs_bdata.reset_gpio_port[1]` and `[2]`,
`gpio_wlan_irq`, `twl6040_data.audpwron_gpio`, and
`omap5_sdp5430_wlan_data.irq` (`none` models the zero static
initialiser; `some g` models `OMAP_GPIO_IRQ(g)`). -/
structure BoardState where
  mmc1_gpio_cd : Int
  usbhs_reset_gpio_port1 : Int
  usbhs_reset_gpio_port2 : Int
  gpio_wlan_irq : Int
  audpwron_gpio : Int
  wlan_data_irq : Option Int
deriving Repr, DecidableEq

/-- GPIO number constants from the top of the board file. -/
def OMAP5_TOUCH_IRQ_1 : Int := 179

/-- Touch-reset GPIO constant. -/
def OMAP5_TOUCH_RESET : Int := 230

/-- WLAN power-enable GPIO constant. -/
def GPIO_WIFI_PMENA : Int := 140

/-- HDMI output-enable GPIO constant. -/
def HDMI_OE_GPIO : Int := 256

/-- HDMI hot-plug-detect enable GPIO constant. -/
def HDMI_HPD_EN_GPIO : Int := 257

/-- HDMI hot-plug-detect GPIO constant. -/
def HDMI_GPIO_HPD : Int := 193

/-- Ethernet bridge reset GPIO on the sEVM. -/
def GPIO_ETH_NRESET_SEVM : Int := 172

/-- Ethernet bridge reset GPIO on the uEVM. -/
def GPIO_ETH_NRESET_UEVM : Int := 15

/-- USB hub reset GPIO on the sEVM. -/
def GPIO_HUB_NRESET_SEVM : Int := 173

/-- USB hub reset GPIO on the uEVM. -/
def GPIO_HUB_NRESET_UEVM : Int := 80

/-- Reset GPIO of the LG4591 DSI panel (`dsi_panel.reset_gpio`). -/
def dsi_panel_reset_gpio : Int := 183

/-- Initial values of the mutable statics, from their C initialisers:
`gpio_cd = 67`, hub reset `173`, ethernet reset `172`,
`gpio_wlan_irq = 9`, `audpwron_gpio = 145`, and `wlan_data.irq`
left zero by omission (`none`). -/
def initBoardState : BoardState :=
  { mmc1_gpio_cd := 67
    usbhs_reset_gpio_port1 := GPIO_HUB_NRESET_SEVM
    usbhs_reset_gpio_port2 := GPIO_ETH_NRESET_SEVM
    gpio_wlan_irq := 9
    audpwron_gpio := 145
    wlan_data_irq := none }

/-- The `struct omap_i2c_bus_board_data` fields this file touches:
the hwspinlock handle and the two callbacks installed on success.
`rest` stands for the remaining (untouched) fields of the struct. -/
structure I2cBusBoardData where
  handle : Option Nat
  hwspin_lock_timeout_set : Bool
  hwspin_unlock_set : Bool
  rest : Nat
deriving Repr, DecidableEq

/-- The statically zero-initialised `sdp4430_i2c_N_bus_pdata` structs. -/
def emptyBusPdata : I2cBusBoardData :=
  { handle := none, hwspin_lock_timeout_set := false
    hwspin_unlock_set := false, rest := 0 }

/-- `omap_i2c_hwspinlock_init` (board-omap5evm.c:302): requests a
generic hwspinlock when `spinlock_id < 0`, the specific lock
`spinlock_id` otherwise; installs the two callbacks when the request
returned a handle, and only logs an error when it returned NULL. -/
def omap_i2c_hwspinlock_init (env : Env) (bus_id : Int) (spinlock_id : Int)
    (pdata : I2cBusBoardData) : I2cBusBoardData × List Event :=
  let h := if spinlock_id < 0 then env.hwspinGeneric else env.hwspinSpecific spinlock_id
  let reqEv := if spinlock_id < 0 then Event.hwspinRequestGeneric
               else Event.hwspinRequestSpecific spinlock_id
  match h with
  | some v =>
      ({ pdata with handle := some v, hwspin_lock_timeout_set := true,
                    hwspin_unlock_set := true },
       [Event.hwspinInitCall bus_id spinlock_id, reqEv])
  | none =>
      ({ pdata with handle := none },
       [Event.hwspinInitCall bus_id spinlock_id, reqEv,
        Event.log "I2C hwspinlock request failed for bus %d"])

/-- The two-entry bus-5 board-info table: the smsc keypad at 0x38 and
the tca6424 expander at 0x22, modelled as (name, address) pairs. -/
def omap5evm_i2c_5_boardinfo : List (String × Nat) :=
  [("smsc", 0x38), ("tca6424", 0x22)]

/-- The bus-1 board-info table: the Palmas entry at 0x48 is present
only under `CONFIG_OMAP5_SEVM_PALMAS`; the twl6040 at 0x4b is
unconditional. -/
def omap5evm_i2c_1_boardinfo (palmas : Bool) : List (String × Nat) :=
  (if palmas then [("twl6035", 0x48)] else []) ++ [("twl6040", 0x4b)]

/-- `omap_5430evm_i2c_init` (board-omap5evm.c:1129): five hwspinlock
requests (bus `i` with spinlock id `i - 1`), five bus-board-data
registrations, then five 400 kHz bus registrations; bus 1 gets the
Palmas/twl6040 table only under `CONFIG_OMAP5_SEVM_PALMAS` (the C code
passes `NULL, 0` otherwise, modelled as the empty table), and bus 5
gets `omap5evm_i2c_5_boardinfo`.  Always returns 0. -/
def omap_5430evm_i2c_init (env : Env) : Int × List Event :=
  (0,
   (omap_i2c_hwspinlock_init env 1 0 emptyBusPdata).2
   ++ (omap_i2c_hwspinlock_init env 2 1 emptyBusPdata).2
   ++ (omap_i2c_hwspinlock_init env 3 2 emptyBusPdata).2
   ++ (omap_i2c_hwspinlock_init env 4 3 emptyBusPdata).2
   ++ (omap_i2c_hwspinlock_init env 5 4 emptyBusPdata).2
   ++ [Event.registerBusBoardData 1, Event.registerBusBoardData 2,
       Event.registerBusBoardData 3, Event.registerBusBoardData 4,
       Event.registerBusBoardData 5]
   ++ [Event.registerI2cBus 1 400
         (if env.cfg_palmas then omap5evm_i2c_1_boardinfo true else []),
       Event.registerI2cBus 2 400 [],
       Event.registerI2cBus 3 400 [],
       Event.registerI2cBus 4 400 [],
       Event.registerI2cBus 5 400 omap5evm_i2c_5_boardinfo])

/-- `omap5evm_touch_init` (board-omap5evm.c:1157): requests the touch
IRQ GPIO 179 and the touch reset GPIO 230, pulses the reset line, and
returns 0.  Both `gpio_request` return values are discarded. -/
def omap5evm_touch_init (env : Env) : Int × List Event :=
  (0,
   [Event.gpioRequest OMAP5_TOUCH_IRQ_1 "atmel touch irq"
      (env.gpioRequest OMAP5_TOUCH_IRQ_1 "atmel touch irq"),
    Event.gpioDirInput OMAP5_TOUCH_IRQ_1,
    Event.gpioRequest OMAP5_TOUCH_RESET "atmel reset"
      (env.gpioRequest OMAP5_TOUCH_RESET "atmel reset"),
    Event.gpioDirOutput OMAP5_TOUCH_RESET 1,
    Event.mdelay 100,
    Event.gpioDirOutput OMAP5_TOUCH_RESET 0,
    Event.mdelay 100,
    Event.gpioDirOutput OMAP5_TOUCH_RESET 1])

/-- `omap5_sdp5430_wifi_mux_init` (board-omap5evm.c:1232): pin-mux
setup for the WLAN interrupt line, the power-enable line and the six
SDIO signals. -/
def omap5_sdp5430_wifi_mux_init (wlanIrq : Int) : List Event :=
  [Event.muxInitGpio wlanIrq,
   Event.muxInitGpio GPIO_WIFI_PMENA,
   Event.muxInitSignal "wlsdio_cmd.wlsdio_cmd",
   Event.muxInitSignal "wlsdio_clk.wlsdio_clk",
   Event.muxInitSignal "wlsdio_data0.wlsdio_data0",
   Event.muxInitSignal "wlsdio_data1.wlsdio_data1",
   Event.muxInitSignal "wlsdio_data2.wlsdio_data2",
   Event.muxInitSignal "wlsdio_data3.wlsdio_data3"]

/-- `omap5_sdp5430_wifi_init` (board-omap5evm.c:1257): mux setup,
then writes `omap5_sdp5430_wlan_data.irq = OMAP_GPIO_IRQ(gpio_wlan_irq)`,
requests the WLAN IRQ GPIO (logging on failure), hands the wl12xx
platform data to the kernel (logging on failure), and registers the
fixed-voltage regulator device. -/
def omap5_sdp5430_wifi_init (env : Env) (s : BoardState) : BoardState × List Event :=
  ({ s with wlan_data_irq := some s.gpio_wlan_irq },
   omap5_sdp5430_wifi_mux_init s.gpio_wlan_irq
   ++ [Event.gpioRequestOne s.gpio_wlan_irq "wlan"
         (env.gpioRequestOne s.gpio_wlan_irq "wlan")]
   ++ (if env.gpioRequestOne s.gpio_wlan_irq "wlan" ≠ 0 then
         [Event.log "wlan: IRQ gpio request failure in board file"] else [])
   ++ [Event.wlSetPlatformData (some s.gpio_wlan_irq) env.wl12xxSetData]
   ++ (if env.wl12xxSetData ≠ 0 then
         [Event.log "Error setting wl12xx data"] else [])
   ++ [Event.platformDeviceRegister "reg-fixed-voltage"])

/-- `omap5evm_lcd_init` (board-omap5evm.c:1384): requests the panel
reset GPIO and logs if the request failed. -/
def omap5evm_lcd_init (env : Env) : List Event :=
  [Event.gpioRequestOne dsi_panel_reset_gpio "lcd1_reset_gpio"
     (env.gpioRequestOne dsi_panel_reset_gpio "lcd1_reset_gpio")]
  ++ (if env.gpioRequestOne dsi_panel_reset_gpio "lcd1_reset_gpio" ≠ 0 then
        [Event.log "Could not get lcd1_reset_gpio"] else [])

/-- `omap5evm_hdmi_init` (board-omap5evm.c:1394): requests the HPD
GPIO and the HPD-enable GPIO, logging each failure, then calls
`omap_hdmi_init(0)`. -/
def omap5evm_hdmi_init (env : Env) : List Event :=
  [Event.gpioRequestOne HDMI_GPIO_HPD "hdmi_gpio_hpd"
     (env.gpioRequestOne HDMI_GPIO_HPD "hdmi_gpio_hpd")]
  ++ (if env.gpioRequestOne HDMI_GPIO_HPD "hdmi_gpio_hpd" ≠ 0 then
        [Event.log "Could not get HDMI"] else [])
  ++ [Event.gpioRequestOne HDMI_HPD_EN_GPIO "HDMI_HPD_EN"
        (env.gpioRequestOne HDMI_HPD_EN_GPIO "HDMI_HPD_EN")]
  ++ (if env.gpioRequestOne HDMI_HPD_EN_GPIO "HDMI_HPD_EN" ≠ 0 then
        [Event.log "Failed to get HDMI HPD EN GPIO"] else [])
  ++ [Event.omapHdmiInit 0]

/-- `omap5evm_display_init` (board-omap5evm.c:1413): LCD init, HDMI
init, then `omap_display_init` with the two-device DSS table. -/
def omap5evm_display_init (env : Env) : List Event :=
  omap5evm_lcd_init env ++ omap5evm_hdmi_init env ++ [Event.omapDisplayInit 2]

/-- `omap5evm_panel_enable_hdmi` (board-omap5evm.c:1462): the HDMI
platform-enable callback.  The first `gpio_request_one` result is
overwritten without being checked; only the second is checked and
logged.  Always returns 0. -/
def omap5evm_panel_enable_hdmi (env : Env) : Int × List Event :=
  (0,
   [Event.log "omap5evm_panel_enable_hdmi",
    Event.gpioRequestOne HDMI_HPD_EN_GPIO "HDMI_HPD_EN"
      (env.gpioRequestOne HDMI_HPD_EN_GPIO "HDMI_HPD_EN"),
    Event.gpioRequestOne HDMI_OE_GPIO "HDMI_OE"
      (env.gpioRequestOne HDMI_OE_GPIO "HDMI_OE")]
   ++ (if env.gpioRequestOne HDMI_OE_GPIO "HDMI_OE" ≠ 0 then
         [Event.log "Failed to get HDMI OE GPIO"] else []))

/-- `omap54xx_common_init` (board-omap5evm.c:1513): the board setup
shared by both variants, in source order: common pin mux, I2C init,
WLAN init (under `CONFIG_WL12XX_PLATFORM_DATA`), two EMIF channels,
MAC fixup paths, serial ports 2 and 4, SDRC, MMC (reading
`mmc[1].gpio_cd`), the HDMI EDID EEPROM and bit-bang I2C device, EHCI
(reading the two `usbhs_bdata` reset ports), the four platform
devices, and display init. -/
def omap54xx_common_init (env : Env) (s : BoardState) : BoardState × List Event :=
  let s1 := if env.cfg_wl12xx then (omap5_sdp5430_wifi_init env s).1 else s
  (s1,
   [Event.commonInitMark,
    Event.muxInitArray "omap5432_common_mux" 15]
   ++ (omap_5430evm_i2c_init env).2
   ++ (if env.cfg_wl12xx then (omap5_sdp5430_wifi_init env s).2 else [])
   ++ [Event.emifSetDetails 1, Event.emifSetDetails 2,
       Event.macFixupPaths 2,
       Event.serialBoardInit 2, Event.serialBoardInit 4,
       Event.sdrcInit,
       Event.hsmmcInit s1.mmc1_gpio_cd,
       Event.i2cRegisterBoardInfo 0 1,
       Event.platformDeviceRegister "i2c-gpio",
       Event.usbhsInit s1.usbhs_reset_gpio_port1 s1.usbhs_reset_gpio_port2,
       Event.platformAddDevices 4]
   ++ omap5evm_display_init env)

/-- The keypad registration and its error check at the end of
`omap_5430_sevm_init` (board-omap5evm.c:1591): a non-zero status from
`omap4_keyboard_init` is only logged. -/
def sevm_keyboard_init (env : Env) : List Event :=
  [Event.keyboardInit env.keyboardInit]
  ++ (if env.keyboardInit ≠ 0 then
        [Event.log "Keypad initialization failed: %d"] else [])

/-- `omap_5430_sevm_init` (board-omap5evm.c:1575): sEVM mux, DCC pull
disable, touch init, sensor init, the shared common init, keypad init
with logged error, a second DCC pull disable, and the camera
regulators.  No static descriptor field is written on this path. -/
def omap_5430_sevm_init (env : Env) (s : BoardState) : BoardState × List Event :=
  ((omap54xx_common_init env s).1,
   [Event.sevmInitMark,
    Event.log "Starting 5430 sEVM setup",
    Event.muxInitArray "omap5432_sevm_mux" 2,
    Event.writel 0x50000000 0x4A002E20]
   ++ (omap5evm_touch_init env).2
   ++ [Event.sensorInit]
   ++ (omap54xx_common_init env s).2
   ++ sevm_keyboard_init env
   ++ [Event.writel 0x50000000 0x4A002E20,
       Event.rprmRegulatorInit 2])

/-- `omap_5432_uevm_init` (board-omap5evm.c:1697): overrides
`mmc[1].gpio_cd` to 152 and the two `usbhs_bdata` reset ports to the
uEVM values, runs the uEVM mux table, looks up `auxclk1_ck` (on
failure only logging; on success setting the rate to 19200000 and
enabling), overrides `gpio_wlan_irq` to 14 and
`twl6040_data.audpwron_gpio` to 141, then runs the shared common
init. -/
def omap_5432_uevm_init (env : Env) (s : BoardState) : BoardState × List Event :=
  let s2 := { s with mmc1_gpio_cd := 152,
                     usbhs_reset_gpio_port1 := GPIO_HUB_NRESET_UEVM,
                     usbhs_reset_gpio_port2 := GPIO_ETH_NRESET_UEVM,
                     gpio_wlan_irq := 14,
                     audpwron_gpio := 141 }
  ((omap54xx_common_init env s2).1,
   [Event.uevmInitMark,
    Event.log "Starting 5432 uEVM setup",
    Event.muxInitArray "omap5432_uevm_mux" 18]
   ++ (match env.clkGetAux with
       | none => [Event.clkGetAux false, Event.log "Cannot request auxclk1"]
       | some _ => [Event.clkGetAux true, Event.clkSetRate 19200000,
                    Event.clkEnable])
   ++ (omap54xx_common_init env s2).2)

/-- `omap_54xx_init` (board-omap5evm.c:1730): the machine-init
callback.  After `omap5_mux_init`, it runs `omap_5432_uevm_init` when
`dt_selected_model` compares equal to `"TI OMAP5 uEVM"`
(`!strcmp(...)`) and `omap_5430_sevm_init` otherwise. -/
def omap_54xx_init (env : Env) (model : String) : BoardState × List Event :=
  if model = "TI OMAP5 uEVM" then
    ((omap_5432_uevm_init env initBoardState).1,
     Event.omap5MuxInit :: (omap_5432_uevm_init env initBoardState).2)
  else
    ((omap_5430_sevm_init env initBoardState).1,
     Event.omap5MuxInit :: (omap_5430_sevm_init env initBoardState).2)


/-! Static descriptor tables, transcribed from the C initialisers. -/

/-- The 8x8 sEVM keymap `evm5430_keymap` (board-omap5evm.c:121), each entry transcribed as (row, column, key code name). -/
def evm5430_keymap : List (Nat × Nat × String) :=
  [
   (0, 0, "KEY_RESERVED"),
   (0, 1, "KEY_RESERVED"),
   (0, 2, "KEY_RESERVED"),
   (0, 3, "KEY_RESERVED"),
   (0, 4, "KEY_RESERVED"),
   (0, 5, "KEY_RESERVED"),
   (0, 6, "KEY_RESERVED"),
   (0, 7, "KEY_RESERVED"),
   (1, 0, "KEY_RESERVED"),
   (1, 1, "KEY_RESERVED"),
   (1, 2, "KEY_RESERVED"),
   (1, 3, "KEY_RESERVED"),
   (1, 4, "KEY_RESERVED"),
   (1, 5, "KEY_RESERVED"),
   (1, 6, "KEY_RESERVED"),
   (1, 7, "KEY_RESERVED"),
   (2, 0, "KEY_RESERVED"),
   (2, 1, "KEY_RESERVED"),
   (2, 2, "KEY_VOLUMEUP"),
   (2, 3, "KEY_VOLUMEDOWN"),
   (2, 4, "KEY_SEND"),
   (2, 5, "KEY_HOME"),
   (2, 6, "KEY_END"),
   (2, 7, "KEY_SEARCH"),
   (3, 0, "KEY_RESERVED"),
   (3, 1, "KEY_RESERVED"),
   (3, 2, "KEY_RESERVED"),
   (3, 3, "KEY_RESERVED"),
   (3, 4, "KEY_RESERVED"),
   (3, 5, "KEY_RESERVED"),
   (3, 6, "KEY_RESERVED"),
   (3, 7, "KEY_RESERVED"),
   (4, 0, "KEY_RESERVED"),
   (4, 1, "KEY_RESERVED"),
   (4, 2, "KEY_RESERVED"),
   (4, 3, "KEY_RESERVED"),
   (4, 4, "KEY_RESERVED"),
   (4, 5, "KEY_RESERVED"),
   (4, 6, "KEY_RESERVED"),
   (4, 7, "KEY_RESERVED"),
   (5, 0, "KEY_RESERVED"),
   (5, 1, "KEY_RESERVED"),
   (5, 2, "KEY_RESERVED"),
   (5, 3, "KEY_RESERVED"),
   (5, 4, "KEY_RESERVED"),
   (5, 5, "KEY_RESERVED"),
   (5, 6, "KEY_RESERVED"),
   (5, 7, "KEY_RESERVED"),
   (6, 0, "KEY_RESERVED"),
   (6, 1, "KEY_RESERVED"),
   (6, 2, "KEY_RESERVED"),
   (6, 3, "KEY_RESERVED"),
   (6, 4, "KEY_RESERVED"),
   (6, 5, "KEY_RESERVED"),
   (6, 6, "KEY_RESERVED"),
   (6, 7, "KEY_RESERVED"),
   (7, 0, "KEY_RESERVED"),
   (7, 1, "KEY_RESERVED"),
   (7, 2, "KEY_RESERVED"),
   (7, 3, "KEY_RESERVED"),
   (7, 4, "KEY_RESERVED"),
   (7, 5, "KEY_RESERVED"),
   (7, 6, "KEY_RESERVED"),
   (7, 7, "KEY_RESERVED")]

/-- The 8x16 smsc keymap `board_keymap` (board-omap5evm.c:210), each entry transcribed as (row, column, key code name). -/
def board_keymap : List (Nat × Nat × String) :=
  [
   (0, 0, "KEY_RESERVED"),
   (0, 1, "KEY_RESERVED"),
   (0, 2, "KEY_F7"),
   (0, 3, "KEY_ESC"),
   (0, 4, "KEY_F4"),
   (0, 5, "KEY_G"),
   (0, 6, "KEY_RESERVED"),
   (0, 7, "KEY_H"),
   (0, 8, "KEY_RESERVED"),
   (0, 9, "KEY_CYCLEWINDOWS"),
   (0, 10, "KEY_RESERVED"),
   (0, 11, "KEY_RESERVED"),
   (0, 12, "KEY_BACKSPACE"),
   (0, 13, "KEY_F11"),
   (0, 14, "KEY_FORWARD"),
   (0, 15, "KEY_INSERT"),
   (1, 0, "KEY_RIGHTSHIFT"),
   (1, 1, "KEY_RESERVED"),
   (1, 2, "KEY_W"),
   (1, 3, "KEY_Q"),
   (1, 4, "KEY_E"),
   (1, 5, "KEY_R"),
   (1, 6, "KEY_RESERVED"),
   (1, 7, "KEY_U"),
   (1, 8, "KEY_I"),
   (1, 9, "KEY_RESERVED"),
   (1, 10, "KEY_RESERVED"),
   (1, 11, "KEY_RESERVED"),
   (1, 12, "KEY_UP"),
   (1, 13, "KEY_O"),
   (1, 14, "KEY_P"),
   (1, 15, "KEY_LEFT"),
   (2, 0, "KEY_RESERVED"),
   (2, 1, "KEY_RESERVED"),
   (2, 2, "KEY_2"),
   (2, 3, "KEY_1"),
   (2, 4, "KEY_3"),
   (2, 5, "KEY_4"),
   (2, 6, "KEY_RESERVED"),
   (2, 7, "KEY_7"),
   (2, 8, "KEY_8"),
   (2, 9, "KEY_RESERVED"),
   (2, 10, "KEY_RESERVED"),
   (2, 11, "KEY_RIGHTALT"),
   (2, 12, "KEY_DOWN"),
   (2, 13, "KEY_9"),
   (2, 14, "KEY_0"),
   (2, 15, "KEY_RIGHT"),
   (3, 0, "KEY_RESERVED"),
   (3, 1, "KEY_RIGHTCTRL"),
   (3, 2, "KEY_S"),
   (3, 3, "KEY_A"),
   (3, 4, "KEY_D"),
   (3, 5, "KEY_F"),
   (3, 6, "KEY_RESERVED"),
   (3, 7, "KEY_J"),
   (3, 8, "KEY_K"),
   (3, 9, "KEY_RESERVED"),
   (3, 10, "KEY_RESERVED"),
   (3, 11, "KEY_RESERVED"),
   (3, 12, "KEY_ENTER"),
   (3, 13, "KEY_L"),
   (3, 14, "KEY_SEMICOLON"),
   (3, 15, "KEY_RESERVED"),
   (4, 0, "KEY_LEFTSHIFT"),
   (4, 1, "KEY_RESERVED"),
   (4, 2, "KEY_X"),
   (4, 3, "KEY_Z"),
   (4, 4, "KEY_C"),
   (4, 5, "KEY_V"),
   (4, 6, "KEY_RESERVED"),
   (4, 7, "KEY_M"),
   (4, 8, "KEY_COMMA"),
   (4, 9, "KEY_RESERVED"),
   (4, 10, "KEY_RESERVED"),
   (4, 11, "KEY_RESERVED"),
   (4, 12, "KEY_SPACE"),
   (4, 13, "KEY_DOT"),
   (4, 14, "KEY_SLASH"),
   (4, 15, "KEY_END"),
   (5, 0, "KEY_RESERVED"),
   (5, 1, "KEY_LEFTCTRL"),
   (5, 2, "KEY_F6"),
   (5, 3, "KEY_TAB"),
   (5, 4, "KEY_F3"),
   (5, 5, "KEY_T"),
   (5, 6, "KEY_RESERVED"),
   (5, 7, "KEY_Y"),
   (5, 8, "KEY_LEFTBRACE"),
   (5, 9, "KEY_RESERVED"),
   (5, 10, "KEY_RESERVED"),
   (5, 11, "KEY_RESERVED"),
   (5, 12, "KEY_RESERVED"),
   (5, 13, "KEY_F10"),
   (5, 14, "KEY_RIGHTBRACE"),
   (5, 15, "KEY_HOME"),
   (6, 0, "KEY_RESERVED"),
   (6, 1, "KEY_RESERVED"),
   (6, 2, "KEY_F5"),
   (6, 3, "KEY_RESERVED"),
   (6, 4, "KEY_F2"),
   (6, 5, "KEY_5"),
   (6, 6, "KEY_FN"),
   (6, 7, "KEY_6"),
   (6, 8, "KEY_RESERVED"),
   (6, 9, "KEY_RESERVED"),
   (6, 10, "KEY_MENU"),
   (6, 11, "KEY_RESERVED"),
   (6, 12, "KEY_BACKSLASH"),
   (6, 13, "KEY_F9"),
   (6, 14, "KEY_RESERVED"),
   (6, 15, "KEY_RESERVED"),
   (7, 0, "KEY_RESERVED"),
   (7, 1, "KEY_RESERVED"),
   (7, 2, "KEY_F8"),
   (7, 3, "KEY_CAPSLOCK"),
   (7, 4, "KEY_F1"),
   (7, 5, "KEY_B"),
   (7, 6, "KEY_RESERVED"),
   (7, 7, "KEY_N"),
   (7, 8, "KEY_RESERVED"),
   (7, 9, "KEY_RESERVED"),
   (7, 10, "KEY_RESERVED"),
   (7, 11, "KEY_LEFTALT"),
   (7, 12, "KEY_RESERVED"),
   (7, 13, "KEY_F12"),
   (7, 14, "KEY_RESERVED"),
   (7, 15, "KEY_DELETE")]

/-- `struct matrix_keymap_data`: a keymap and its declared size. -/
structure MatrixKeymapData where
  keymap : List (Nat × Nat × String)
  keymap_size : Nat
deriving Repr, DecidableEq

/-- `evm5430_keymap_data` (board-omap5evm.c:195): `keymap_size` is
`ARRAY_SIZE(evm5430_keymap)`. -/
def evm5430_keymap_data : MatrixKeymapData :=
  { keymap := evm5430_keymap, keymap_size := evm5430_keymap.length }

/-- The fields of `struct omap4_keypad_platform_data` set by this file. -/
structure Omap4KeypadPlatformData where
  keymap_data : MatrixKeymapData
  rows : Nat
  cols : Nat
deriving Repr, DecidableEq

/-- `evm5430_keypad_data` (board-omap5evm.c:200): 8 rows, 8 columns. -/
def evm5430_keypad_data : Omap4KeypadPlatformData :=
  { keymap_data := evm5430_keymap_data, rows := 8, cols := 8 }

/-- `board_map_data` (board-omap5evm.c:283): `keymap_size` is
`ARRAY_SIZE(board_keymap)`. -/
def board_map_data : MatrixKeymapData :=
  { keymap := board_keymap, keymap_size := board_keymap.length }

/-- The fields of `struct smsc_keypad_data` set by this file. -/
structure SmscKeypadData where
  keymap_data : MatrixKeymapData
  rows : Nat
  cols : Nat
  rep : Nat
deriving Repr, DecidableEq

/-- `omap5_kp_data` (board-omap5evm.c:288): 8 rows, 16 columns. -/
def omap5_kp_data : SmscKeypadData :=
  { keymap_data := board_map_data, rows := 8, cols := 16, rep := 1 }

/-- One entry of the `gpio_leds` array: name, default trigger, GPIO. -/
structure GpioLed where
  name : String
  default_trigger : String
  gpio : Nat
deriving Repr, DecidableEq

/-- The six-entry `gpio_leds` array (board-omap5evm.c:75). -/
def gpio_leds : List GpioLed :=
  [{ name := "red",  default_trigger := "heartbeat",   gpio := 273 },
   { name := "usr1", default_trigger := "default-off", gpio := 258 },
   { name := "usr2", default_trigger := "default-off", gpio := 259 },
   { name := "usr3", default_trigger := "default-off", gpio := 260 },
   { name := "usr4", default_trigger := "default-off", gpio := 261 },
   { name := "usr5", default_trigger := "default-off", gpio := 262 }]

/-- `struct gpio_led_platform_data`: the led list and declared count. -/
structure GpioLedPlatformData where
  leds : List GpioLed
  num_leds : Nat
deriving Repr, DecidableEq

/-- `gpio_led_info` (board-omap5evm.c:108): `num_leds` is
`ARRAY_SIZE(gpio_leds)`. -/
def gpio_led_info : GpioLedPlatformData :=
  { leds := gpio_leds, num_leds := gpio_leds.length }

/-- The `valid_ops_mask` bits this file uses:
`REGULATOR_CHANGE_VOLTAGE`, `REGULATOR_CHANGE_MODE`,
`REGULATOR_CHANGE_STATUS`, modelled as flag booleans. -/
structure RegulatorOps where
  change_voltage : Bool
  change_mode : Bool
  change_status : Bool
deriving Repr, DecidableEq

/-- The `regulator_init_data.constraints` fields this file sets.
`valid_modes_mask` is `REGULATOR_MODE_NORMAL | REGULATOR_MODE_STANDBY`,
modelled as two flag booleans. -/
structure RegulatorConstraints where
  min_uV : Nat
  max_uV : Nat
  mode_normal : Bool
  mode_standby : Bool
  valid_ops : RegulatorOps
  always_on : Bool
  apply_uV : Bool
deriving Repr, DecidableEq

/-- A `struct regulator_init_data`: constraints plus its consumer
supplies as (supply, device-name) pairs. -/
structure RegulatorInitData where
  constraints : RegulatorConstraints
  consumer_supplies : List (String × String)
deriving Repr, DecidableEq

/-- Shorthand for the NORMAL|STANDBY + MODE|STATUS constraint block
shared by the fixed-voltage rails. -/
def fixedRail (uV : Nat) (alwaysOn applyUV : Bool)
    (supplies : List (String × String)) : RegulatorInitData :=
  { constraints :=
      { min_uV := uV, max_uV := uV, mode_normal := true, mode_standby := true
        valid_ops := { change_voltage := false, change_mode := true, change_status := true }
        always_on := alwaysOn, apply_uV := applyUV }
    consumer_supplies := supplies }

/-- Shorthand for the NORMAL|STANDBY + VOLTAGE|MODE|STATUS constraint
block of the variable rails. -/
def variableRail (lo hi : Nat) (supplies : List (String × String)) : RegulatorInitData :=
  { constraints :=
      { min_uV := lo, max_uV := hi, mode_normal := true, mode_standby := true
        valid_ops := { change_voltage := true, change_mode := true, change_status := true }
        always_on := false, apply_uV := false }
    consumer_supplies := supplies }

/-- `omap5_smps12` (board-omap5evm.c:470): 0.60-1.31 V, voltage change allowed. -/
def omap5_smps12 : RegulatorInitData := variableRail 600000 1310000 []

/-- `omap5_smps45` (board-omap5evm.c:482): 0.60-1.31 V, voltage change allowed. -/
def omap5_smps45 : RegulatorInitData := variableRail 600000 1310000 []

/-- `omap5_smps6` (board-omap5evm.c:494): fixed 1.2 V. -/
def omap5_smps6 : RegulatorInitData := fixedRail 1200000 false false []

/-- `omap5_smps7` (board-omap5evm.c:505): fixed 1.8 V. -/
def omap5_smps7 : RegulatorInitData := fixedRail 1800000 false false []

/-- `omap5_smps8` (board-omap5evm.c:516): 0.60-1.31 V, voltage change allowed. -/
def omap5_smps8 : RegulatorInitData := variableRail 600000 1310000 []

/-- `omap5_smps9` (board-omap5evm.c:532): fixed 2.1 V, always on,
supplying the audio codec. -/
def omap5_smps9 : RegulatorInitData :=
  fixedRail 2100000 true false [("vcc", "soc-audio")]

/-- `omap5_smps10` (board-omap5evm.c:551): fixed 5 V, vbus supply. -/
def omap5_smps10 : RegulatorInitData :=
  fixedRail 5000000 false false [("vbus", "1-0048")]

/-- `omap5_ldo1` (board-omap5evm.c:564): fixed 2.8 V, always on. -/
def omap5_ldo1 : RegulatorInitData := fixedRail 2800000 true false []

/-- `omap5_ldo2` (board-omap5evm.c:580): fixed 2.9 V, applied at boot,
always on, supplying the LCD panel. -/
def omap5_ldo2 : RegulatorInitData :=
  fixedRail 2900000 true true [("panel_supply", "omapdss_dsi.0")]

/-- `omap5_ldo3` (board-omap5evm.c:595): fixed 3.0 V. -/
def omap5_ldo3 : RegulatorInitData := fixedRail 3000000 false false []

/-- `omap5_ldo4` (board-omap5evm.c:606): fixed 2.2 V. -/
def omap5_ldo4 : RegulatorInitData := fixedRail 2200000 false false []

/-- `omap5_ldo5` (board-omap5evm.c:617): fixed 1.8 V. -/
def omap5_ldo5 : RegulatorInitData := fixedRail 1800000 false false []

/-- `omap5_ldo6` (board-omap5evm.c:628): fixed 1.5 V. -/
def omap5_ldo6 : RegulatorInitData := fixedRail 1500000 false false []

/-- `omap5_ldo7` (board-omap5evm.c:646): fixed 1.5 V, applied at boot,
supplying the four DSS PHY rails. -/
def omap5_ldo7 : RegulatorInitData :=
  fixedRail 1500000 false true
    [("vdds_dsi", "omapdss"), ("vdds_dsi", "omapdss_dsi.0"),
     ("vdds_dsi", "omapdss_dsi.1"), ("vdds_hdmi", "omapdss_hdmi")]

/-- `omap5_ldo8` (board-omap5evm.c:660): fixed 1.5 V. -/
def omap5_ldo8 : RegulatorInitData := fixedRail 1500000 false false []

/-- `omap5_ldo9` (board-omap5evm.c:675): 1.8-3.0 V, voltage change
allowed, supplying the MMC1 io rail. -/
def omap5_ldo9 : RegulatorInitData :=
  variableRail 1800000 3000000 [("vmmc_aux", "omap_hsmmc.0")]

/-- `omap5_ldoln` (board-omap5evm.c:689): fixed 1.8 V. -/
def omap5_ldoln : RegulatorInitData := fixedRail 1800000 false false []

/-- `omap5_ldousb` (board-omap5evm.c:700): fixed 3.25 V. -/
def omap5_ldousb : RegulatorInitData := fixedRail 3250000 false false []

/-- `palmas_omap5_reg` (board-omap5evm.c:711): the 21-slot regulator
table; the SMPS123, SMPS3 and SMPS457 slots are NULL. -/
def palmas_omap5_reg : List (Option RegulatorInitData) :=
  [some omap5_smps12, none, none, some omap5_smps45, none,
   some omap5_smps6, some omap5_smps7, some omap5_smps8,
   some omap5_smps9, some omap5_smps10,
   some omap5_ldo1, some omap5_ldo2, some omap5_ldo3, some omap5_ldo4,
   some omap5_ldo5, some omap5_ldo6, some omap5_ldo7, some omap5_ldo8,
   some omap5_ldo9, some omap5_ldoln, some omap5_ldousb]

/-- `sdp5430_vmmc3` (board-omap5evm.c:1206): only
`REGULATOR_CHANGE_STATUS` is set; all other constraint fields stay at
their zero C initialisers. -/
def sdp5430_vmmc3 : RegulatorInitData :=
  { constraints :=
      { min_uV := 0, max_uV := 0, mode_normal := false, mode_standby := false
        valid_ops := { change_voltage := false, change_mode := false, change_status := true }
        always_on := false, apply_uV := false }
    consumer_supplies := [("vmmc", "omap_hsmmc.2")] }

/-- The DSS device fields this file sets: name, driver and channel. -/
structure OmapDssDevice where
  name : String
  driver_name : String
  channel : String
deriving Repr, DecidableEq

/-- `omap5evm_lcd_device` (board-omap5evm.c:1433). -/
def omap5evm_lcd_device : OmapDssDevice :=
  { name := "lcd", driver_name := "lg4591", channel := "OMAP_DSS_CHANNEL_LCD" }

/-- `omap5evm_hdmi_device` (board-omap5evm.c:1492). -/
def omap5evm_hdmi_device : OmapDssDevice :=
  { name := "hdmi", driver_name := "hdmi_panel", channel := "OMAP_DSS_CHANNEL_DIGIT" }

/-- `omap5evm_dss_devices` (board-omap5evm.c:1502): LCD then HDMI. -/
def omap5evm_dss_devices : List OmapDssDevice :=
  [omap5evm_lcd_device, omap5evm_hdmi_device]

/-- `struct omap_dss_board_info`: device list, declared count,
default device. -/
structure OmapDssBoardData where
  num_devices : Nat
  devices : List OmapDssDevice
  default_device : OmapDssDevice
deriving Repr, DecidableEq

/-- `omap5evm_dss_data` (board-omap5evm.c:1507): `num_devices` is
`ARRAY_SIZE(omap5evm_dss_devices)`; the default device is the HDMI
device. -/
def omap5evm_dss_data : OmapDssBoardData :=
  { num_devices := omap5evm_dss_devices.length
    devices := omap5evm_dss_devices
    default_device := omap5evm_hdmi_device }


/-! Trace predicates and normalisation.  `eraseRet` forgets log events
and the kernel return values recorded in a trace; two runs whose
normalised traces agree perform the same kernel calls in the same
order, differing only in logging. -/

/-- True exactly on log events. -/
def isLog : Event → Bool
  | .log _ => true
  | _ => false

/-- True exactly on the `omap54xx_common_init` entry marker. -/
def isCommonMark : Event → Bool
  | .commonInitMark => true
  | _ => false

/-- True exactly on the `omap_5432_uevm_init` entry marker. -/
def isUevmMark : Event → Bool
  | .uevmInitMark => true
  | _ => false

/-- True exactly on the `omap_5430_sevm_init` entry marker. -/
def isSevmMark : Event → Bool
  | .sevmInitMark => true
  | _ => false

/-- True exactly on `clk_get(NULL, "auxclk1_ck")` events. -/
def isClkGet : Event → Bool
  | .clkGetAux _ => true
  | _ => false

/-- True exactly on `clk_set_rate` events. -/
def isClkSet : Event → Bool
  | .clkSetRate _ => true
  | _ => false

/-- True exactly on `clk_enable` events. -/
def isClkEnable : Event → Bool
  | .clkEnable => true
  | _ => false

/-- The GPIO number of a `gpio_request`/`gpio_request_one` event. -/
def requestedGpio : Event → Option Int
  | .gpioRequest g _ _ => some g
  | .gpioRequestOne g _ _ => some g
  | _ => none

/-- True on events recording a fallible registration call that
returned a non-zero (error) value. -/
def isFailedCall : Event → Bool
  | .gpioRequest _ _ r => decide (r ≠ 0)
  | .gpioRequestOne _ _ r => decide (r ≠ 0)
  | .keyboardInit r => decide (r ≠ 0)
  | .wlSetPlatformData _ r => decide (r ≠ 0)
  | _ => false

/-- Every event recording a failed call is immediately followed by a
log event. -/
def logsFollowFailures : List Event → Bool
  | [] => true
  | [e] => !isFailedCall e
  | e :: e2 :: t => (!isFailedCall e || isLog e2) && logsFollowFailures (e2 :: t)

/-- Forgets log events and the kernel return values inside a trace. -/
def eraseRet : Event → Option Event
  | .log _ => none
  | .gpioRequest g l _ => some (.gpioRequest g l 0)
  | .gpioRequestOne g l _ => some (.gpioRequestOne g l 0)
  | .keyboardInit _ => some (.keyboardInit 0)
  | .wlSetPlatformData irq _ => some (.wlSetPlatformData irq 0)
  | e => some e

/-- A trace up to logging and observed return values. -/
def normTrace (t : List Event) : List Event := t.filterMap eraseRet

/-! Canonical (normalised) traces of each routine. -/

/-- Normalised trace of `omap5evm_touch_init`. -/
def touchCanonTrace : List Event :=
  [.gpioRequest OMAP5_TOUCH_IRQ_1 "atmel touch irq" 0,
   .gpioDirInput OMAP5_TOUCH_IRQ_1,
   .gpioRequest OMAP5_TOUCH_RESET "atmel reset" 0,
   .gpioDirOutput OMAP5_TOUCH_RESET 1, .mdelay 100,
   .gpioDirOutput OMAP5_TOUCH_RESET 0, .mdelay 100,
   .gpioDirOutput OMAP5_TOUCH_RESET 1]

/-- Normalised trace of `omap_5430evm_i2c_init`. -/
def i2cCanonTrace (palmas : Bool) : List Event :=
  [.hwspinInitCall 1 0, .hwspinRequestSpecific 0,
   .hwspinInitCall 2 1, .hwspinRequestSpecific 1,
   .hwspinInitCall 3 2, .hwspinRequestSpecific 2,
   .hwspinInitCall 4 3, .hwspinRequestSpecific 3,
   .hwspinInitCall 5 4, .hwspinRequestSpecific 4,
   .registerBusBoardData 1, .registerBusBoardData 2,
   .registerBusBoardData 3, .registerBusBoardData 4,
   .registerBusBoardData 5,
   .registerI2cBus 1 400 (if palmas then omap5evm_i2c_1_boardinfo true else []),
   .registerI2cBus 2 400 [],
   .registerI2cBus 3 400 [],
   .registerI2cBus 4 400 [],
   .registerI2cBus 5 400 omap5evm_i2c_5_boardinfo]

/-- Normalised trace of `omap5_sdp5430_wifi_init` for WLAN IRQ `g`. -/
def wifiCanonTrace (g : Int) : List Event :=
  [.muxInitGpio g, .muxInitGpio GPIO_WIFI_PMENA,
   .muxInitSignal "wlsdio_cmd.wlsdio_cmd",
   .muxInitSignal "wlsdio_clk.wlsdio_clk",
   .muxInitSignal "wlsdio_data0.wlsdio_data0",
   .muxInitSignal "wlsdio_data1.wlsdio_data1",
   .muxInitSignal "wlsdio_data2.wlsdio_data2",
   .muxInitSignal "wlsdio_data3.wlsdio_data3",
   .gpioRequestOne g "wlan" 0,
   .wlSetPlatformData (some g) 0,
   .platformDeviceRegister "reg-fixed-voltage"]

/-- Normalised trace of `omap5evm_display_init`. -/
def displayCanonTrace : List Event :=
  [.gpioRequestOne dsi_panel_reset_gpio "lcd1_reset_gpio" 0,
   .gpioRequestOne HDMI_GPIO_HPD "hdmi_gpio_hpd" 0,
   .gpioRequestOne HDMI_HPD_EN_GPIO "HDMI_HPD_EN" 0,
   .omapHdmiInit 0, .omapDisplayInit 2]

/-- Normalised trace of `omap54xx_common_init` entered in state `s`,
with `w`/`p` the two config switches. -/
def commonCanonTrace (w p : Bool) (s : BoardState) : List Event :=
  [.commonInitMark, .muxInitArray "omap5432_common_mux" 15]
  ++ i2cCanonTrace p
  ++ (if w then wifiCanonTrace s.gpio_wlan_irq else [])
  ++ [.emifSetDetails 1, .emifSetDetails 2, .macFixupPaths 2,
      .serialBoardInit 2, .serialBoardInit 4, .sdrcInit,
      .hsmmcInit s.mmc1_gpio_cd, .i2cRegisterBoardInfo 0 1,
      .platformDeviceRegister "i2c-gpio",
      .usbhsInit s.usbhs_reset_gpio_port1 s.usbhs_reset_gpio_port2,
      .platformAddDevices 4]
  ++ displayCanonTrace

/-- Normalised trace of `omap_5430_sevm_init` entered in state `s`. -/
def sevmCanonTrace (w p : Bool) (s : BoardState) : List Event :=
  [.sevmInitMark, .muxInitArray "omap5432_sevm_mux" 2,
   .writel 0x50000000 0x4A002E20]
  ++ touchCanonTrace ++ [.sensorInit]
  ++ commonCanonTrace w p s
  ++ [.keyboardInit 0, .writel 0x50000000 0x4A002E20,
      .rprmRegulatorInit 2]

/-- The uEVM field overrides applied to the entry state. -/
def uevmOverrides (s : BoardState) : BoardState :=
  { s with mmc1_gpio_cd := 152,
           usbhs_reset_gpio_port1 := GPIO_HUB_NRESET_UEVM,
           usbhs_reset_gpio_port2 := GPIO_ETH_NRESET_UEVM,
           gpio_wlan_irq := 14,
           audpwron_gpio := 141 }

/-- Normalised trace of `omap_5432_uevm_init` entered in state `s`,
with `clkOk` recording whether the `auxclk1_ck` lookup succeeded. -/
def uevmCanonTrace (w p clkOk : Bool) (s : BoardState) : List Event :=
  [.uevmInitMark, .muxInitArray "omap5432_uevm_mux" 18]
  ++ (if clkOk then [.clkGetAux true, .clkSetRate 19200000, .clkEnable]
      else [.clkGetAux false])
  ++ commonCanonTrace w p (uevmOverrides s)

/-- Normalised trace of the whole machine-init callback. -/
def topCanonTrace (w p clkOk : Bool) (uevm : Prop) [Decidable uevm] : List Event :=
  Event.omap5MuxInit ::
    (if uevm then uevmCanonTrace w p clkOk initBoardState
     else sevmCanonTrace w p initBoardState)

/-- True exactly on generic hwspinlock request events. -/
def isHwspinGeneric : Event → Bool
  | .hwspinRequestGeneric => true
  | _ => false

/-- True exactly on specific hwspinlock request events. -/
def isHwspinSpecific : Event → Bool
  | .hwspinRequestSpecific _ => true
  | _ => false

/-- The voltage-range consistency check of a regulator table slot:
a NULL slot passes; a populated slot must declare `min_uV ≤ max_uV`
and must carry `REGULATOR_CHANGE_VOLTAGE` exactly when
`min_uV < max_uV`. -/
def regulatorVoltageOk : Option RegulatorInitData → Bool
  | none => true
  | some d =>
      decide (d.constraints.min_uV ≤ d.constraints.max_uV) &&
      (d.constraints.valid_ops.change_voltage
        == decide (d.constraints.min_uV < d.constraints.max_uV))

/-- A kernel environment in which every external call succeeds and
both config switches are on. -/
def envAllOk : Env :=
  { hwspinGeneric := some 0, hwspinSpecific := fun _ => some 0
    gpioRequest := fun _ _ => 0, gpioRequestOne := fun _ _ => 0
    wl12xxSetData := 0, keyboardInit := 0, clkGetAux := some 0
    cfg_wl12xx := true, cfg_palmas := true }

/-- A kernel environment with the same configuration and clock outcome
as `envAllOk` in which every fallible registration call fails. -/
def envOkFail : Env :=
  { envAllOk with
    hwspinSpecific := fun _ => none
    gpioRequest := fun _ _ => -5, gpioRequestOne := fun _ _ => -5
    wl12xxSetData := -5, keyboardInit := -5 }

/-- A kernel environment in which every external call fails, the clock
lookup included, with `CONFIG_WL12XX_PLATFORM_DATA` on and
`CONFIG_OMAP5_SEVM_PALMAS` off. -/
def envAllFail : Env :=
  { hwspinGeneric := none, hwspinSpecific := fun _ => none
    gpioRequest := fun _ _ => -22, gpioRequestOne := fun _ _ => -22
    wl12xxSetData := -22, keyboardInit := -22, clkGetAux := none
    cfg_wl12xx := true, cfg_palmas := false }

/-- `normTrace` distributes over concatenation. -/
theorem normTrace_append (a b : List Event) :
    normTrace (a ++ b) = normTrace a ++ normTrace b :=
  List.filterMap_append a b eraseRet

/-- A conditional log block disappears under normalisation. -/
theorem normTrace_logIf (c : Prop) [Decidable c] (m : String) :
    normTrace (if c then [Event.log m] else []) = [] := by
  split <;> rfl

/-- The touch-init trace normalises to its canonical form. -/
theorem norm_touch (env : Env) :
    normTrace (omap5evm_touch_init env).2 = touchCanonTrace := rfl

/-- A hwspinlock-init call with a non-negative spinlock id normalises
to the call record plus the specific-lock request. -/
theorem norm_hwspin_nonneg (env : Env) (b id : Int) (h : ¬ id < 0)
    (p : I2cBusBoardData) :
    normTrace (omap_i2c_hwspinlock_init env b id p).2 =
      [.hwspinInitCall b id, .hwspinRequestSpecific id] := by
  unfold omap_i2c_hwspinlock_init
  rw [if_neg h, if_neg h]
  cases env.hwspinSpecific id <;> rfl

/-- The I2C init trace normalises to its canonical form. -/
theorem norm_i2c (env : Env) :
    normTrace (omap_5430evm_i2c_init env).2 = i2cCanonTrace env.cfg_palmas := by
  show normTrace (_ ++ _ ++ _ ++ _ ++ _ ++ _ ++ _) = _
  rw [normTrace_append, normTrace_append, normTrace_append, normTrace_append,
      normTrace_append, normTrace_append,
      norm_hwspin_nonneg env 1 0 (by decide), norm_hwspin_nonneg env 2 1 (by decide),
      norm_hwspin_nonneg env 3 2 (by decide), norm_hwspin_nonneg env 4 3 (by decide),
      norm_hwspin_nonneg env 5 4 (by decide)]
  cases env.cfg_palmas <;> rfl

/-- The WLAN init trace normalises to its canonical form. -/
theorem norm_wifi (env : Env) (s : BoardState) :
    normTrace (omap5_sdp5430_wifi_init env s).2 =
      wifiCanonTrace s.gpio_wlan_irq := by
  show normTrace (_ ++ _ ++ _ ++ _ ++ _ ++ _) = _
  simp only [normTrace_append, normTrace_logIf]
  rfl

/-- The display init trace normalises to its canonical form. -/
theorem norm_display (env : Env) :
    normTrace (omap5evm_display_init env) = displayCanonTrace := by
  unfold omap5evm_display_init omap5evm_lcd_init omap5evm_hdmi_init
  simp only [normTrace_append, normTrace_logIf]
  rfl

/-- The common init trace normalises to its canonical form. -/
theorem norm_common (env : Env) (s : BoardState) :
    normTrace (omap54xx_common_init env s).2 =
      commonCanonTrace env.cfg_wl12xx env.cfg_palmas s := by
  unfold omap54xx_common_init commonCanonTrace
  rw [normTrace_append, normTrace_append, normTrace_append, normTrace_append,
      norm_i2c, norm_display]
  cases hw : env.cfg_wl12xx
  · rfl
  · rw [show (if (true : Bool) = true then (omap5_sdp5430_wifi_init env s).2
          else []) = (omap5_sdp5430_wifi_init env s).2 from rfl,
        norm_wifi]
    rfl

/-- The keypad registration trace normalises to the bare status
record. -/
theorem norm_keyboard (env : Env) :
    normTrace (sevm_keyboard_init env) = [.keyboardInit 0] := by
  unfold sevm_keyboard_init
  rw [normTrace_append, normTrace_logIf]
  rfl

/-- The sEVM init trace normalises to its canonical form. -/
theorem norm_sevm (env : Env) (s : BoardState) :
    normTrace (omap_5430_sevm_init env s).2 =
      sevmCanonTrace env.cfg_wl12xx env.cfg_palmas s := by
  show normTrace (_ ++ _ ++ _ ++ _ ++ _ ++ _) = _
  simp only [normTrace_append]
  rw [norm_touch, norm_common, norm_keyboard]
  simp [sevmCanonTrace, normTrace, eraseRet, List.filterMap_cons,
        List.append_assoc]

/-- The uEVM init trace normalises to its canonical form. -/
theorem norm_uevm (env : Env) (s : BoardState) :
    normTrace (omap_5432_uevm_init env s).2 =
      uevmCanonTrace env.cfg_wl12xx env.cfg_palmas env.clkGetAux.isSome s := by
  unfold omap_5432_uevm_init uevmCanonTrace
  rw [normTrace_append, normTrace_append, norm_common]
  cases hc : env.clkGetAux <;> rfl

/-- The machine-init trace normalises to its canonical form. -/
theorem norm_top (env : Env) (model : String) :
    normTrace (omap_54xx_init env model).2 =
      topCanonTrace env.cfg_wl12xx env.cfg_palmas env.clkGetAux.isSome
        (model = "TI OMAP5 uEVM") := by
  unfold omap_54xx_init topCanonTrace
  by_cases hm : model = "TI OMAP5 uEVM"
  · rw [if_pos hm, if_pos hm,
        show normTrace (Event.omap5MuxInit ::
            (omap_5432_uevm_init env initBoardState).2) =
          Event.omap5MuxInit ::
            normTrace (omap_5432_uevm_init env initBoardState).2 from rfl,
        norm_uevm]
  · rw [if_neg hm, if_neg hm,
        show normTrace (Event.omap5MuxInit ::
            (omap_5430_sevm_init env initBoardState).2) =
          Event.omap5MuxInit ::
            normTrace (omap_5430_sevm_init env initBoardState).2 from rfl,
        norm_sevm]


/-! Counting events in a raw trace through its normalisation. -/

/-- Normalisation preserves `countP` for any predicate that ignores
log events and observed return values. -/
theorem countP_normTrace (p : Event → Bool)
    (h1 : ∀ m, p (.log m) = false)
    (h2 : ∀ g l r, p (.gpioRequest g l r) = p (.gpioRequest g l 0))
    (h3 : ∀ g l r, p (.gpioRequestOne g l r) = p (.gpioRequestOne g l 0))
    (h4 : ∀ r, p (.keyboardInit r) = p (.keyboardInit 0))
    (h5 : ∀ irq r, p (.wlSetPlatformData irq r) = p (.wlSetPlatformData irq 0))
    (t : List Event) :
    (normTrace t).countP p = t.countP p := by
  induction t with
  | nil => rfl
  | cons e t ih =>
      simp only [normTrace] at ih
      cases e <;>
        simp [normTrace, List.filterMap_cons, eraseRet, List.countP_cons,
              ih, h1, h2, h3, h4, h5]

/-- Normalisation preserves the sublist of `clk_set_rate` events. -/
theorem filter_normTrace_clkSet (t : List Event) :
    (normTrace t).filter isClkSet = t.filter isClkSet := by
  induction t with
  | nil => rfl
  | cons e t ih =>
      simp only [normTrace] at ih
      cases e <;>
        simp [normTrace, List.filterMap_cons, eraseRet, List.filter_cons,
              isClkSet, ih]

/-- Normalisation preserves the list of requested GPIO numbers. -/
theorem filterMap_normTrace_requested (t : List Event) :
    (normTrace t).filterMap requestedGpio = t.filterMap requestedGpio := by
  induction t with
  | nil => rfl
  | cons e t ih =>
      simp only [normTrace] at ih
      cases e <;>
        simp [normTrace, List.filterMap_cons, eraseRet, requestedGpio, ih]

/-! Event counts over the canonical traces. -/

/-- The canonical machine-init trace holds the uEVM marker exactly
when the uEVM branch was taken. -/
theorem topCanon_uevmMark (w p c : Bool) (u : Prop) [Decidable u] :
    (topCanonTrace w p c u).countP isUevmMark = if u then 1 else 0 := by
  by_cases hu : u <;> cases w <;> cases p <;> cases c <;>
    simp [topCanonTrace, hu] <;> decide

/-- The canonical machine-init trace holds the sEVM marker exactly
when the sEVM branch was taken. -/
theorem topCanon_sevmMark (w p c : Bool) (u : Prop) [Decidable u] :
    (topCanonTrace w p c u).countP isSevmMark = if u then 0 else 1 := by
  by_cases hu : u <;> cases w <;> cases p <;> cases c <;>
    simp [topCanonTrace, hu] <;> decide

/-- The canonical machine-init trace always enters the common init
exactly once. -/
theorem topCanon_commonMark (w p c : Bool) (u : Prop) [Decidable u] :
    (topCanonTrace w p c u).countP isCommonMark = 1 := by
  by_cases hu : u <;> cases w <;> cases p <;> cases c <;>
    simp [topCanonTrace, hu] <;> decide

/-- Clock events in the canonical uEVM trace: one `clk_get`; a
`clk_set_rate` to 19200000 and one `clk_enable` exactly when the
lookup succeeded. -/
theorem uevmCanon_clk (w p c : Bool) (s : BoardState) :
    ((uevmCanonTrace w p c s).countP isClkGet = 1) ∧
    ((uevmCanonTrace w p c s).filter isClkSet =
        (if c then [Event.clkSetRate 19200000] else [])) ∧
    ((uevmCanonTrace w p c s).countP isClkEnable = if c then 1 else 0) := by
  cases w <;> cases p <;> cases c <;>
    simp [uevmCanonTrace, commonCanonTrace, i2cCanonTrace, wifiCanonTrace,
          displayCanonTrace, uevmOverrides,
          isClkGet, isClkSet, isClkEnable,
          List.countP_append, List.countP_cons,
          List.filter_append, List.filter_cons]


/-! The claims. -/

/-- C1: `omap_54xx_init` selects the board variant by a single two-way
branch on the device-tree model string: `omap_5432_uevm_init` runs if
and only if the model equals "TI OMAP5 uEVM" and `omap_5430_sevm_init`
runs otherwise, so exactly one variant initialiser runs for every
model string; and the whole machine init enters the shared
`omap54xx_common_init` exactly once, as does each variant initialiser
on its own. -/
theorem c1_variant_selection (env : Env) (model : String) :
    ((omap_54xx_init env model).2.countP isUevmMark
       = if model = "TI OMAP5 uEVM" then 1 else 0) ∧
    ((omap_54xx_init env model).2.countP isSevmMark
       = if model = "TI OMAP5 uEVM" then 0 else 1) ∧
    ((omap_54xx_init env model).2.countP isCommonMark = 1) ∧
    ((omap_5432_uevm_init env initBoardState).2.countP isCommonMark = 1) ∧
    ((omap_5430_sevm_init env initBoardState).2.countP isCommonMark = 1) := by
  refine ⟨?_, ?_, ?_, ?_, ?_⟩
  · rw [← countP_normTrace isUevmMark (fun _ => rfl) (fun _ _ _ => rfl)
          (fun _ _ _ => rfl) (fun _ => rfl) (fun _ _ => rfl), norm_top]
    exact topCanon_uevmMark _ _ _ _
  · rw [← countP_normTrace isSevmMark (fun _ => rfl) (fun _ _ _ => rfl)
          (fun _ _ _ => rfl) (fun _ => rfl) (fun _ _ => rfl), norm_top]
    exact topCanon_sevmMark _ _ _ _
  · rw [← countP_normTrace isCommonMark (fun _ => rfl) (fun _ _ _ => rfl)
          (fun _ _ _ => rfl) (fun _ => rfl) (fun _ _ => rfl), norm_top]
    exact topCanon_commonMark _ _ _ _
  · rw [← countP_normTrace isCommonMark (fun _ => rfl) (fun _ _ _ => rfl)
          (fun _ _ _ => rfl) (fun _ => rfl) (fun _ _ => rfl), norm_uevm]
    cases hw : env.cfg_wl12xx <;> cases hp : env.cfg_palmas <;>
      cases hc : env.clkGetAux <;>
        simp only [Option.isSome_some, Option.isSome_none] <;> decide
  · rw [← countP_normTrace isCommonMark (fun _ => rfl) (fun _ _ _ => rfl)
          (fun _ _ _ => rfl) (fun _ => rfl) (fun _ _ => rfl), norm_sevm]
    cases hw : env.cfg_wl12xx <;> cases hp : env.cfg_palmas <;> decide

/-- C2 counterexample: on the sEVM path (a model string other than
"TI OMAP5 uEVM"), with `CONFIG_WL12XX_PLATFORM_DATA` enabled, the
static table field `omap5_sdp5430_wlan_data.irq` does not keep its
initial value: `omap5_sdp5430_wifi_init` overwrites it on both paths,
so field mutation is not limited to the five uEVM overrides. -/
theorem c2_cex :
    (omap_54xx_init envAllOk "OMAP5430 sEVM").1.wlan_data_irq ≠
      initBoardState.wlan_data_irq := by decide

/-- C2 (amended): on the uEVM path the five listed fields are set to
152, 80, 15, 14 and 141, and on the sEVM path they keep their initial
values 67, 173, 172, 9 and 145; the only other static-table field
written on either path is `omap5_sdp5430_wlan_data.irq`, which (when
`CONFIG_WL12XX_PLATFORM_DATA` is enabled) is set on both paths to the
IRQ of the current `gpio_wlan_irq`. -/
theorem c2_field_overrides (env : Env) (model : String) :
    ((if model = "TI OMAP5 uEVM" then
        (omap_54xx_init env model).1.mmc1_gpio_cd = 152 ∧
        (omap_54xx_init env model).1.usbhs_reset_gpio_port1 = 80 ∧
        (omap_54xx_init env model).1.usbhs_reset_gpio_port2 = 15 ∧
        (omap_54xx_init env model).1.gpio_wlan_irq = 14 ∧
        (omap_54xx_init env model).1.audpwron_gpio = 141
      else
        (omap_54xx_init env model).1.mmc1_gpio_cd = 67 ∧
        (omap_54xx_init env model).1.usbhs_reset_gpio_port1 = 173 ∧
        (omap_54xx_init env model).1.usbhs_reset_gpio_port2 = 172 ∧
        (omap_54xx_init env model).1.gpio_wlan_irq = 9 ∧
        (omap_54xx_init env model).1.audpwron_gpio = 145)) ∧
    (omap_54xx_init env model).1.wlan_data_irq =
      (if env.cfg_wl12xx then some (omap_54xx_init env model).1.gpio_wlan_irq
       else none) := by
  have hcomm : ∀ s : BoardState, (omap54xx_common_init env s).1 =
      (if env.cfg_wl12xx then { s with wlan_data_irq := some s.gpio_wlan_irq }
       else s) := fun _ => rfl
  by_cases hm : model = "TI OMAP5 uEVM"
  · have htop : (omap_54xx_init env model).1 =
        (omap54xx_common_init env (uevmOverrides initBoardState)).1 := by
      unfold omap_54xx_init
      rw [if_pos hm]
      rfl
    rw [htop, hcomm, if_pos hm]
    cases hw : env.cfg_wl12xx <;>
      simp [uevmOverrides, initBoardState, GPIO_HUB_NRESET_UEVM,
            GPIO_ETH_NRESET_UEVM]
  · have htop : (omap_54xx_init env model).1 =
        (omap54xx_common_init env initBoardState).1 := by
      unfold omap_54xx_init
      rw [if_neg hm]
      rfl
    rw [htop, hcomm, if_neg hm]
    cases hw : env.cfg_wl12xx <;>
      simp [initBoardState, GPIO_HUB_NRESET_SEVM, GPIO_ETH_NRESET_SEVM]

/-- C5: `omap_5430evm_i2c_init` always returns 0 and performs, in
order: the five hwspinlock requests (bus i paired with spinlock id
i - 1 for buses 1..5), the five bus-board-data registrations in
ascending bus order, then the five 400 kHz bus registrations in
ascending order, bus 1 carrying the Palmas/twl6040 table exactly when
`CONFIG_OMAP5_SEVM_PALMAS` is set, buses 2-4 empty, and bus 5 the
smsc@0x38 / tca6424@0x22 table. -/
theorem c5_i2c_sequence (env : Env) :
    (omap_5430evm_i2c_init env).1 = 0 ∧
    normTrace (omap_5430evm_i2c_init env).2 = i2cCanonTrace env.cfg_palmas :=
  ⟨rfl, norm_i2c env⟩

/-- C7: every populated slot of `palmas_omap5_reg`, and the wl12xx
supply `sdp5430_vmmc3`, declares `min_uV ≤ max_uV` and carries
`REGULATOR_CHANGE_VOLTAGE` exactly when `min_uV < max_uV`. -/
theorem c7_regulator_invariant :
    palmas_omap5_reg.all regulatorVoltageOk = true ∧
    regulatorVoltageOk (some sdp5430_vmmc3) = true := by decide

/-- C9: each declared table size matches its table: the 8x8 sEVM
keypad has a 64-entry keymap, the 8x16 smsc keypad a 128-entry keymap,
`gpio_led_info.num_leds` equals the length (6) of `gpio_leds`, and
`omap5evm_dss_data.num_devices` equals the length (2) of
`omap5evm_dss_devices`, whose member the default device is. -/
theorem c9_table_sizes :
    evm5430_keypad_data.keymap_data.keymap_size = 64 ∧
    evm5430_keypad_data.rows * evm5430_keypad_data.cols = 64 ∧
    evm5430_keymap.length = 64 ∧
    omap5_kp_data.keymap_data.keymap_size = 128 ∧
    omap5_kp_data.rows * omap5_kp_data.cols = 128 ∧
    board_keymap.length = 128 ∧
    gpio_led_info.num_leds = gpio_leds.length ∧
    gpio_leds.length = 6 ∧
    omap5evm_dss_data.num_devices = omap5evm_dss_devices.length ∧
    omap5evm_dss_devices.length = 2 ∧
    omap5evm_dss_data.default_device ∈ omap5evm_dss_devices := by
  set_option maxRecDepth 4000 in decide


/-- C3 counterexample: in `omap5evm_touch_init` both `gpio_request`
return values are discarded: with every request failing, the trace
holds two failed calls and no log message at all, so a non-zero
return value does not lead to a log message. -/
theorem c3_cex :
    envAllFail.gpioRequest OMAP5_TOUCH_IRQ_1 "atmel touch irq" ≠ 0 ∧
    (omap5evm_touch_init envAllFail).2.countP isFailedCall = 2 ∧
    (omap5evm_touch_init envAllFail).2.countP isLog = 0 := by decide

/-- C3 (amended): failures of GPIO/keypad registration calls affect
nothing but logging: (1) for fixed configuration and clock outcome the
normalised machine-init trace is independent of every registration
result, so initialisation always continues past a failure; (2) no GPIO
is ever requested twice, so nothing is retried; (3) the checked call
sites (LCD reset, the two HDMI init GPIOs, the WLAN IRQ GPIO, the
wl12xx data registration and `omap4_keyboard_init`) follow every
failure immediately with a log message; but (4) `omap5evm_touch_init`
discards both of its `gpio_request` results, logging nothing and
returning 0. -/
theorem c3_error_handling :
    (∀ env1 env2 : Env, ∀ model : String,
        env1.cfg_wl12xx = env2.cfg_wl12xx →
        env1.cfg_palmas = env2.cfg_palmas →
        env1.clkGetAux.isSome = env2.clkGetAux.isSome →
        normTrace (omap_54xx_init env1 model).2 =
          normTrace (omap_54xx_init env2 model).2) ∧
    (∀ env : Env, ∀ model : String,
        ((omap_54xx_init env model).2.filterMap requestedGpio).Nodup) ∧
    (∀ env : Env, ∀ s : BoardState,
        logsFollowFailures (omap5evm_lcd_init env) = true ∧
        logsFollowFailures (omap5evm_hdmi_init env) = true ∧
        logsFollowFailures (omap5_sdp5430_wifi_init env s).2 = true ∧
        logsFollowFailures (sevm_keyboard_init env) = true) ∧
    (∀ env : Env,
        (omap5evm_touch_init env).1 = 0 ∧
        (omap5evm_touch_init env).2.countP isLog = 0) := by
  refine ⟨?_, ?_, ?_, ?_⟩
  · intro env1 env2 model h1 h2 h3
    rw [norm_top, norm_top, h1, h2, h3]
  · intro env model
    rw [← filterMap_normTrace_requested, norm_top]
    by_cases hm : model = "TI OMAP5 uEVM" <;>
      cases hw : env.cfg_wl12xx <;> cases hp : env.cfg_palmas <;>
        cases hc : env.clkGetAux <;>
          simp [topCanonTrace, hm, Option.isSome_some, Option.isSome_none] <;>
          decide
  · intro env s
    refine ⟨?_, ?_, ?_, ?_⟩
    · by_cases h : env.gpioRequestOne dsi_panel_reset_gpio "lcd1_reset_gpio" = 0 <;>
        simp [omap5evm_lcd_init, logsFollowFailures, isFailedCall, isLog, h]
    · by_cases h1 : env.gpioRequestOne HDMI_GPIO_HPD "hdmi_gpio_hpd" = 0 <;>
        by_cases h2 : env.gpioRequestOne HDMI_HPD_EN_GPIO "HDMI_HPD_EN" = 0 <;>
          simp [omap5evm_hdmi_init, logsFollowFailures, isFailedCall, isLog,
                h1, h2]
    · by_cases h1 : env.gpioRequestOne s.gpio_wlan_irq "wlan" = 0 <;>
        by_cases h2 : env.wl12xxSetData = 0 <;>
          simp [omap5_sdp5430_wifi_init, omap5_sdp5430_wifi_mux_init,
                logsFollowFailures, isFailedCall, isLog, h1, h2]
    · by_cases h : env.keyboardInit = 0 <;>
        simp [sevm_keyboard_init, logsFollowFailures, isFailedCall, isLog, h]
  · intro env
    exact ⟨rfl, by simp [omap5evm_touch_init, isLog, List.countP_cons]⟩

/-- Witness for the amended C3: concrete instances of each part, the
trace-invariance part applied to an all-success and an all-failure
environment sharing configuration and clock outcome. -/
theorem c3_error_handling_witness :
    (normTrace (omap_54xx_init envAllOk "OMAP5430 sEVM").2 =
       normTrace (omap_54xx_init envOkFail "OMAP5430 sEVM").2) ∧
    ((omap_54xx_init envAllFail "TI OMAP5 uEVM").2.filterMap
        requestedGpio).Nodup ∧
    logsFollowFailures (omap5evm_lcd_init envAllFail) = true ∧
    (omap5evm_touch_init envAllFail).1 = 0 :=
  ⟨c3_error_handling.1 envAllOk envOkFail "OMAP5430 sEVM" rfl rfl rfl,
   c3_error_handling.2.1 envAllFail "TI OMAP5 uEVM",
   (c3_error_handling.2.2.1 envAllFail initBoardState).1,
   (c3_error_handling.2.2.2 envAllFail).1⟩

/-- C4 counterexample: with both of its `gpio_request` calls failing,
`omap5evm_touch_init` still returns 0, not a non-zero error code. -/
theorem c4_cex :
    envAllFail.gpioRequest OMAP5_TOUCH_IRQ_1 "atmel touch irq" ≠ 0 ∧
    envAllFail.gpioRequest OMAP5_TOUCH_RESET "atmel reset" ≠ 0 ∧
    (omap5evm_touch_init envAllFail).1 = 0 := by decide

/-- C4 (amended): `omap5evm_touch_init` performs no failure handling
at all: whatever the two `gpio_request` calls return, it logs nothing
and returns 0, even though each failure is visible in its trace. -/
theorem c4_touch_returns_zero (env : Env) :
    (omap5evm_touch_init env).1 = 0 ∧
    (omap5evm_touch_init env).2.countP isLog = 0 ∧
    (omap5evm_touch_init env).2.countP isFailedCall =
      ((if env.gpioRequest OMAP5_TOUCH_IRQ_1 "atmel touch irq" = 0
        then 0 else 1) +
       (if env.gpioRequest OMAP5_TOUCH_RESET "atmel reset" = 0
        then 0 else 1)) := by
  refine ⟨rfl, ?_, ?_⟩
  · simp [omap5evm_touch_init, isLog, List.countP_cons]
  · by_cases h1 : env.gpioRequest OMAP5_TOUCH_IRQ_1 "atmel touch irq" = 0 <;>
      by_cases h2 : env.gpioRequest OMAP5_TOUCH_RESET "atmel reset" = 0 <;>
        simp [omap5evm_touch_init, isFailedCall, List.countP_cons, h1, h2]

/-- C6: the uEVM path performs exactly one `auxclk1_ck` lookup; when
it fails, the failure is only logged and both `clk_set_rate` and
`clk_enable` are skipped; when it succeeds, the rate is set to exactly
19200000 Hz and the clock is enabled once, with no retry in either
case. -/
theorem c6_auxclk_error_handling (env : Env) (s : BoardState) :
    ((omap_5432_uevm_init env s).2.countP isClkGet = 1) ∧
    (match env.clkGetAux with
     | none =>
         Event.log "Cannot request auxclk1" ∈ (omap_5432_uevm_init env s).2 ∧
         (omap_5432_uevm_init env s).2.filter isClkSet = [] ∧
         (omap_5432_uevm_init env s).2.countP isClkEnable = 0
     | some _ =>
         (omap_5432_uevm_init env s).2.filter isClkSet
             = [Event.clkSetRate 19200000] ∧
         (omap_5432_uevm_init env s).2.countP isClkEnable = 1) := by
  constructor
  · rw [← countP_normTrace isClkGet (fun _ => rfl) (fun _ _ _ => rfl)
          (fun _ _ _ => rfl) (fun _ => rfl) (fun _ _ => rfl), norm_uevm]
    exact (uevmCanon_clk _ _ _ _).1
  · cases hc : env.clkGetAux
    · refine ⟨?_, ?_, ?_⟩
      · unfold omap_5432_uevm_init
        rw [hc]
        simp [List.mem_append]
      · rw [← filter_normTrace_clkSet, norm_uevm, hc]
        simpa using (uevmCanon_clk env.cfg_wl12xx env.cfg_palmas
          (Option.isSome (none : Option Nat)) s).2.1
      · rw [← countP_normTrace isClkEnable (fun _ => rfl) (fun _ _ _ => rfl)
              (fun _ _ _ => rfl) (fun _ => rfl) (fun _ _ => rfl),
            norm_uevm, hc]
        simpa using (uevmCanon_clk env.cfg_wl12xx env.cfg_palmas
          (Option.isSome (none : Option Nat)) s).2.2
    · refine ⟨?_, ?_⟩
      · rw [← filter_normTrace_clkSet, norm_uevm, hc]
        simpa using (uevmCanon_clk env.cfg_wl12xx env.cfg_palmas true s).2.1
      · rw [← countP_normTrace isClkEnable (fun _ => rfl) (fun _ _ _ => rfl)
              (fun _ _ _ => rfl) (fun _ => rfl) (fun _ _ => rfl),
            norm_uevm, hc]
        simpa using (uevmCanon_clk env.cfg_wl12xx env.cfg_palmas true s).2.2

/-- C8: `omap_i2c_hwspinlock_init` requests a generic hwspinlock
exactly when its spinlock id is negative and the specific lock with
that id otherwise; it installs the two callbacks exactly when the
request returned a handle, and on failure only logs one error, leaving
every field of the pdata other than `handle` unchanged with `handle`
NULL. -/
theorem c8_hwspinlock_behaviour (env : Env) (b id : Int)
    (p : I2cBusBoardData) :
    ((omap_i2c_hwspinlock_init env b id p).1.handle =
        (if id < 0 then env.hwspinGeneric else env.hwspinSpecific id)) ∧
    ((omap_i2c_hwspinlock_init env b id p).2.countP isHwspinGeneric
        = if id < 0 then 1 else 0) ∧
    ((omap_i2c_hwspinlock_init env b id p).2.filter isHwspinSpecific
        = if id < 0 then [] else [Event.hwspinRequestSpecific id]) ∧
    ((omap_i2c_hwspinlock_init env b id p).1.rest = p.rest) ∧
    (match (if id < 0 then env.hwspinGeneric else env.hwspinSpecific id) with
     | some _ =>
         (omap_i2c_hwspinlock_init env b id p).1.hwspin_lock_timeout_set
             = true ∧
         (omap_i2c_hwspinlock_init env b id p).1.hwspin_unlock_set = true ∧
         (omap_i2c_hwspinlock_init env b id p).2.countP isLog = 0
     | none =>
         (omap_i2c_hwspinlock_init env b id p).1.hwspin_lock_timeout_set
             = p.hwspin_lock_timeout_set ∧
         (omap_i2c_hwspinlock_init env b id p).1.hwspin_unlock_set
             = p.hwspin_unlock_set ∧
         (omap_i2c_hwspinlock_init env b id p).2.countP isLog = 1) := by
  by_cases hid : id < 0
  · cases hh : env.hwspinGeneric <;>
      simp [omap_i2c_hwspinlock_init, hid, hh, isHwspinGeneric,
            isHwspinSpecific, isLog, List.countP_cons, List.filter_cons]
  · cases hh : env.hwspinSpecific id <;>
      simp [omap_i2c_hwspinlock_init, hid, hh, isHwspinGeneric,
            isHwspinSpecific, isLog, List.countP_cons, List.filter_cons]

end OmapBoard
